import Mathlib

/-!
Verification of the smart-session-planner core (suggestion engine,
progress aggregator, and the sessions-create route) against its
natural-language specification.

Embedding conventions:
* Instants (`Date` values) are whole minutes since an epoch midnight that
  falls on a Sunday; session data is UTC-normalized, so local time equals
  UTC and a calendar day is exactly 1440 minutes.
* JS `number` is modelled as `ℚ` (exact arithmetic); `Math.round` is
  Mathlib's `round` (half-up, also for negatives, like JS).
* `date-fns` `differenceInHours` truncates toward zero, `addHours` with a
  fractional amount adds exact milliseconds; both are exact at minute
  granularity.
* `"HH:mm"` strings are modelled by their minutes-of-day value: the source
  compares such strings lexicographically, which on fixed-width zero-padded
  strings agrees with the numeric order of the encoded minutes.
-/

namespace SessionPlanner

/-- `SessionType` record (`category`/timestamps omitted: unused by the core). -/
structure SessionType where
  id : String
  name : String
  priority : ℚ
deriving DecidableEq

/-- `Session` record with the denormalized `sessionType` embed. -/
structure Session where
  id : String
  sessionTypeId : String
  sessionType : SessionType
  startTime : Int
  endTime : Int
  completed : Bool
deriving DecidableEq

/-- `AvailabilityWindow`: `startTime`/`endTime` are the minutes-of-day encoded
by the `"HH:mm"` strings. -/
structure AvailabilityWindow where
  dayOfWeek : Int
  startTime : Int
  endTime : Int
deriving DecidableEq

/-- Engine output record; `startTime`/`endTime` are the instants whose ISO
strings the source emits. -/
structure SessionSuggestion where
  sessionTypeId : String
  startTime : Int
  endTime : Int
  reason : String
  score : Int
deriving DecidableEq

structure TypeCount where
  sessionTypeId : String
  sessionTypeName : String
  count : Nat
deriving DecidableEq

structure ProgressStats where
  totalScheduled : Nat
  totalCompleted : Nat
  completionRate : Int
  sessionsByType : List TypeCount
  averageSpacing : ℚ
deriving DecidableEq

/-- date-fns `differenceInHours`: whole hours, truncated toward zero. -/
def differenceInHours (a b : Int) : Int := (a - b).tdiv 60

/-- `setHours(0,0,0,0)`: floor an instant to its calendar midnight. -/
def dayFloor (t : Int) : Int := 1440 * t.fdiv 1440

/-- `setHours(h,m,0,0)` on the day containing `t`. -/
def setHM (t : Int) (h m : Int) : Int := dayFloor t + h * 60 + m

/-- `getHours()`. -/
def getHours (t : Int) : Int := (t.emod 1440).tdiv 60

/-- Minutes-of-day; numeric stand-in for `format(t, "HH:mm")`. -/
def minutesOfDay (t : Int) : Int := t.emod 1440

/-- `getDay()`: 0 = Sunday (the epoch day is a Sunday). -/
def getDay (t : Int) : Int := (t.fdiv 1440).emod 7

/-- `Math.round(q * 10) / 10`: round to 1 decimal place. -/
def roundTo1 (q : ℚ) : ℚ := (round (q * 10) : ℚ) / 10

def MIN_SPACING_HOURS : Int := 2
def IDEAL_SPACING_HOURS : ℚ := 24
def MAX_SESSIONS_PER_DAY : Nat := 4
def HIGH_PRIORITY_THRESHOLD : ℚ := 4

/-- Minimum of two extended values, `none` playing `Infinity`. -/
def optMin : Option Int → Option Int → Option Int
  | none, b => b
  | some a, none => some a
  | some a, some b => some (min a b)

/-- `d > 0 ? d : Infinity`. -/
def posOrInf (d : Int) : Option Int := if 0 < d then some d else none

/-- Per-session entry of the `spacings` array:
`Math.min(distanceBefore > 0 ? distanceBefore : Infinity,
          distanceAfter > 0 ? distanceAfter : Infinity)`. -/
def sessionSpacing (proposedStart proposedEnd : Int) (s : Session) : Option Int :=
  optMin (posOrInf (differenceInHours proposedStart s.endTime))
         (posOrInf (differenceInHours s.startTime proposedEnd))

/-- `Math.min(...spacings)` over all existing sessions. -/
def minSpacingOf (proposedStart proposedEnd : Int) (existing : List Session) : Option Int :=
  existing.foldr (fun s acc => optMin (sessionSpacing proposedStart proposedEnd s) acc) none

/-- `calculateSpacingScore` from `suggestion.ts`. -/
def calculateSpacingScore (proposedStart proposedEnd : Int)
    (existingSessions : List Session) : ℚ :=
  if existingSessions.isEmpty then 100
  else
    match minSpacingOf proposedStart proposedEnd existingSessions with
    | none => 100
    | some minSpacing =>
      if minSpacing < MIN_SPACING_HOURS then 0
      else min 100 ((minSpacing : ℚ) / IDEAL_SPACING_HOURS * 100)

/-- `calculatePriorityScore`. -/
def calculatePriorityScore (priority : ℚ) : ℚ := priority / 5 * 100

/-- `calculateDayLoadScore`: sessions starting on the candidate's calendar day
(`dayEnd` is 23:59:59.999; at whole-minute granularity that is `dayStart + 1439`). -/
def calculateDayLoadScore (proposedDate : Int) (existingSessions : List Session) : ℚ :=
  let dayStart := dayFloor proposedDate
  let dayEnd := dayStart + 1439
  let sessionsOnDay := existingSessions.filter
    (fun s => decide (dayStart ≤ s.startTime) && decide (s.startTime ≤ dayEnd))
  if MAX_SESSIONS_PER_DAY ≤ sessionsOnDay.length then 20
  else 100 - sessionsOnDay.length * 15

/-- `calculateAvailabilityScore`. -/
def calculateAvailabilityScore (proposedStart proposedEnd : Int)
    (availabilityWindows : List AvailabilityWindow) : ℚ :=
  let dayOfWeek := getDay proposedStart
  let startTimeStr := minutesOfDay proposedStart
  let endTimeStr := minutesOfDay proposedEnd
  let matchingWindows := availabilityWindows.filter (fun w => decide (w.dayOfWeek = dayOfWeek))
  if matchingWindows.isEmpty then 50
  else if matchingWindows.any
      (fun w => decide (w.startTime ≤ startTimeStr) && decide (endTimeStr ≤ w.endTime)) then 100
  else if matchingWindows.any
      (fun w => (decide (w.startTime ≤ startTimeStr) && decide (startTimeStr < w.endTime)) ||
                (decide (w.startTime < endTimeStr) && decide (endTimeStr ≤ w.endTime))) then 50
  else 0

/-- `calculateFatigueScore`. -/
def calculateFatigueScore (proposedStart : Int) (sessionTypePriority : ℚ)
    (existingSessions : List Session) : ℚ :=
  if sessionTypePriority < HIGH_PRIORITY_THRESHOLD then 100
  else
    let windowStart := proposedStart - 48 * 60
    let windowEnd := proposedStart + 48 * 60
    let nearbyHighPrioritySessions := existingSessions.filter
      (fun s => decide (windowStart ≤ s.startTime) && decide (s.startTime ≤ windowEnd) &&
                decide (HIGH_PRIORITY_THRESHOLD ≤ s.sessionType.priority))
    if 3 ≤ nearbyHighPrioritySessions.length then 30
    else if 2 ≤ nearbyHighPrioritySessions.length then 60
    else 100

/-- While loop of `generateTimeSlots`: emit `current` and step 30 minutes while
`current + duration ≤ windowEnd`. -/
def slotLoop (windowEnd durationMinutes : Int) (current : Int) : List Int :=
  if h : current + durationMinutes ≤ windowEnd then
    current :: slotLoop windowEnd durationMinutes (current + 30)
  else []
termination_by (windowEnd - durationMinutes - current + 30).toNat
decreasing_by
  simp_wf
  omega

/-- `generateTimeSlots` from `suggestion.ts`. -/
def generateTimeSlots (date : Int) (durationMinutes : Int)
    (availabilityWindows : List AvailabilityWindow) : List Int :=
  let dayOfWeek := getDay date
  let windows := availabilityWindows.filter (fun w => decide (w.dayOfWeek = dayOfWeek))
  if windows.isEmpty then
    slotLoop (setHM date 22 0) durationMinutes (setHM date 6 0)
  else
    windows.flatMap (fun w =>
      slotLoop (dayFloor date + w.endTime) durationMinutes (dayFloor date + w.startTime))

/-- `scoreTimeSlot`: the weighted combination of the five factor scores. -/
def scoreTimeSlot (startTime endTime : Int) (sessionType : SessionType)
    (existingSessions : List Session)
    (availabilityWindows : List AvailabilityWindow) : ℚ :=
  calculateSpacingScore startTime endTime existingSessions * (3/10)
  + calculatePriorityScore sessionType.priority * (15/100)
  + calculateDayLoadScore startTime existingSessions * (2/10)
  + calculateAvailabilityScore startTime endTime availabilityWindows * (25/100)
  + calculateFatigueScore startTime sessionType.priority existingSessions * (1/10)

/-- Print `k` tenths the way JS prints the number `k / 10`
(no decimal part when it is integral); used with `k ≥ 0`. -/
def fmtTenths (k : Int) : String :=
  if k.emod 10 = 0 then toString (k.ediv 10)
  else toString (k.ediv 10) ++ "." ++ toString (k.emod 10)

/-- `generateReason` from `suggestion.ts` (the `score` argument is unused in the
source as well). -/
def generateReason (startTime : Int) (score : ℚ) (priority : ℚ)
    (existingSessions : List Session) (sessionTypeId : String) : String :=
  let sameTypeSessions := existingSessions.filter
    (fun s => decide (s.sessionTypeId = sessionTypeId))
  let spacingReasons : List String :=
    match sameTypeSessions with
    | [] => ["First session of this type"]
    | first :: _ =>
      let spacings := (sameTypeSessions.map
        (fun s => differenceInHours startTime s.endTime)).filter (fun d => decide (0 < d))
      match spacings.foldr (fun d acc => optMin (some d) acc) none with
      | none => []
      | some minSpacing =>
        if 24 ≤ minSpacing then
          ["Good spacing (" ++ fmtTenths (round ((minSpacing : ℚ) / 24 * 10)) ++
            " days since last " ++ first.sessionType.name ++ ")"]
        else
          ["Good spacing (" ++ toString minSpacing ++ " hours since last " ++
            first.sessionType.name ++ ")"]
  let hour := getHours startTime
  let focusReasons : List String :=
    if 6 ≤ hour ∧ hour < 12 then ["Uses your morning focus window"]
    else if 18 ≤ hour ∧ hour < 22 then ["Uses your evening focus window"]
    else []
  let priorityReasons : List String :=
    if HIGH_PRIORITY_THRESHOLD ≤ priority then ["High priority session"] else []
  let reasons := spacingReasons ++ focusReasons ++ priorityReasons
  if reasons.isEmpty then "Good time slot available" else String.intercalate ". " reasons

/-- Conflict test of `generateSuggestions` (three-disjunct form from the source). -/
def conflictTest (startTime endTime : Int) (s : Session) : Bool :=
  (decide (s.startTime ≤ startTime) && decide (startTime < s.endTime)) ||
  (decide (s.startTime < endTime) && decide (endTime ≤ s.endTime)) ||
  (decide (startTime ≤ s.startTime) && decide (s.endTime ≤ endTime))

/-- Sort order used by `R.sortBy((s) => -s.score)`. -/
def suggOrder (a b : SessionSuggestion) : Prop := -a.score ≤ -b.score

instance : DecidableRel suggOrder := fun _ _ => Int.decLe _ _

instance : IsTotal SessionSuggestion suggOrder :=
  ⟨fun a b => le_total (-a.score) (-b.score)⟩

instance : IsTrans SessionSuggestion suggOrder :=
  ⟨fun _ _ _ hab hbc => le_trans hab hbc⟩

/-- `generateSuggestions` from `suggestion.ts`. `now` is the current instant
(the source reads the clock; `today.setHours(0,0,0,0)` floors it). -/
def generateSuggestions (sessionType : SessionType) (existingSessions : List Session)
    (availabilityWindows : List AvailabilityWindow) (durationMinutes : Int)
    (lookAheadDays : Nat) (now : Int) : List SessionSuggestion :=
  let today := dayFloor now
  let suggestions := (List.range lookAheadDays).flatMap (fun dayOffset =>
    let date := today + (dayOffset : Int) * 1440
    (generateTimeSlots date durationMinutes availabilityWindows).filterMap
      (fun startTime =>
        let endTime := startTime + durationMinutes
        if existingSessions.any (conflictTest startTime endTime) then none
        else
          let score := scoreTimeSlot startTime endTime sessionType
            existingSessions availabilityWindows
          if 30 ≤ score then
            some { sessionTypeId := sessionType.id
                   startTime := startTime
                   endTime := endTime
                   reason := generateReason startTime score sessionType.priority
                     existingSessions sessionType.id
                   score := round score }
          else none))
  (List.insertionSort suggOrder suggestions).take 10

/-- `R.sortBy` on `startTime` (stable ascending sort, like JS `Array.sort`). -/
def sortByStart (sessions : List Session) : List Session :=
  List.insertionSort (fun a b : Session => a.startTime ≤ b.startTime) sessions

/-- `calculateAverageSpacing` from `progress.ts` (`R.aperture(2)` is the list of
consecutive pairs, i.e. `l.zip l.tail`). -/
def calculateAverageSpacing (sessions : List Session) : ℚ :=
  if sessions.length < 2 then 0
  else
    let sortedSessions := sortByStart sessions
    let spacings := (sortedSessions.zip sortedSessions.tail).map
      (fun p => differenceInHours p.2.startTime p.1.endTime)
    if spacings.length = 0 then 0
    else (spacings.sum : ℚ) / (spacings.length : ℚ) / 24

/-- `R.groupBy` by `sessionTypeId`: JS objects keep string keys in insertion
order of first occurrence. -/
def insertGrouped (key : String) (s : Session) :
    List (String × List Session) → List (String × List Session)
  | [] => [(key, [s])]
  | (k, group) :: rest =>
    if k = key then (k, group ++ [s]) :: rest else (k, group) :: insertGrouped key s rest

def groupBySessionTypeId (sessions : List Session) : List (String × List Session) :=
  sessions.foldl (fun acc s => insertGrouped s.sessionTypeId s acc) []

/-- `calculateSessionsByType` from `progress.ts`. -/
def calculateSessionsByType (sessions : List Session) : List TypeCount :=
  List.insertionSort (fun a b : TypeCount => -(a.count : Int) ≤ -(b.count : Int))
    ((groupBySessionTypeId sessions).map (fun p =>
      { sessionTypeId := p.1
        sessionTypeName := ((p.2.head?).map (fun s => s.sessionType.name)).getD ""
        count := p.2.length }))

/-- `calculateProgressStats` from `progress.ts`. -/
def calculateProgressStats (sessions : List Session) : ProgressStats :=
  let totalScheduled := sessions.length
  let totalCompleted := (sessions.filter (fun s => s.completed)).length
  let completionRate : Int :=
    if 0 < totalScheduled then round ((totalCompleted : ℚ) / (totalScheduled : ℚ) * 100)
    else 0
  { totalScheduled := totalScheduled
    totalCompleted := totalCompleted
    completionRate := completionRate
    sessionsByType := calculateSessionsByType sessions
    averageSpacing := roundTo1 (calculateAverageSpacing sessions) }

/-- Outcome of `POST /api/sessions` (the decision logic of the route). -/
inductive PostResult where
  | notFound
  | badRequest
  | conflict (conflicts : List Session)
  | created (startTime endTime : Int)
deriving DecidableEq

/-- Prisma conflict query of the route: `startTime < endTime(new) AND
endTime > startTime(new)`. -/
def overlapTest (startTime endTime : Int) (s : Session) : Bool :=
  decide (s.startTime < endTime) && decide (startTime < s.endTime)

/-- Decision logic of `POST` in `sessions/route.ts`: 404 when the session type
is missing, 400 unless `isAfter(endTime, startTime)`, 409 with the conflicting
sessions when the overlap query is non-empty, else 201. -/
def sessionsPOST (sessionTypeExists : Bool) (startTime endTime : Int)
    (existing : List Session) : PostResult :=
  if !sessionTypeExists then .notFound
  else if !(decide (startTime < endTime)) then .badRequest
  else
    let conflictingSessions := existing.filter (overlapTest startTime endTime)
    if conflictingSessions.isEmpty then .created startTime endTime
    else .conflict conflictingSessions

/-- Half-open interval intersection: `[a, b) ∩ [c, d) ≠ ∅` over the integers. -/
def intervalsIntersect (a b c d : Int) : Prop := max a c < min b d

instance (a b c d : Int) : Decidable (intervalsIntersect a b c d) :=
  inferInstanceAs (Decidable (_ < _))

theorem intervalsIntersect_iff_exists (a b c d : Int) :
    intervalsIntersect a b c d ↔ ∃ t, (a ≤ t ∧ t < b) ∧ (c ≤ t ∧ t < d) := by
  constructor
  · intro h
    exact ⟨max a c, by unfold intervalsIntersect at h; omega⟩
  · rintro ⟨t, ht⟩
    unfold intervalsIntersect
    omega

/-! Shared helper lemmas. -/

/-- An intersecting pair of intervals is flagged by the engine's conflict test
(no well-formedness hypotheses are needed for this direction). -/
theorem conflictTest_of_intersect {t e : Int} {s : Session}
    (h : intervalsIntersect t e s.startTime s.endTime) : conflictTest t e s = true := by
  simp only [conflictTest, Bool.or_eq_true, Bool.and_eq_true, decide_eq_true_eq]
  unfold intervalsIntersect at h
  omega

/-- On positive-duration intervals, the engine's three-disjunct conflict test
agrees with the route's two-inequality overlap test. -/
theorem conflictTest_iff_overlapTest {t e : Int} {s : Session}
    (hc : t < e) (hs : s.startTime < s.endTime) :
    conflictTest t e s = true ↔ overlapTest t e s = true := by
  simp only [conflictTest, overlapTest, Bool.or_eq_true, Bool.and_eq_true, decide_eq_true_eq]
  omega

/-- Mathlib's `round` (JS `Math.round`) is monotone. -/
theorem round_le_round_of_le {x y : ℚ} (h : x ≤ y) : round x ≤ round y := by
  rw [round_eq, round_eq]
  exact Int.floor_le_floor (by linarith)

/-- A suggestion surfaced by `generateSuggestions` comes from a candidate start
time that passed the conflict filter and the 30-point score threshold. -/
theorem mem_generateSuggestions
    {sessionType : SessionType} {existingSessions : List Session}
    {availabilityWindows : List AvailabilityWindow} {durationMinutes : Int}
    {lookAheadDays : Nat} {now : Int} {sugg : SessionSuggestion}
    (h : sugg ∈ generateSuggestions sessionType existingSessions availabilityWindows
      durationMinutes lookAheadDays now) :
    ∃ startTime : Int,
      existingSessions.any (conflictTest startTime (startTime + durationMinutes)) = false ∧
      30 ≤ scoreTimeSlot startTime (startTime + durationMinutes) sessionType
        existingSessions availabilityWindows ∧
      sugg = { sessionTypeId := sessionType.id
               startTime := startTime
               endTime := startTime + durationMinutes
               reason := generateReason startTime
                 (scoreTimeSlot startTime (startTime + durationMinutes) sessionType
                   existingSessions availabilityWindows) sessionType.priority
                 existingSessions sessionType.id
               score := round (scoreTimeSlot startTime (startTime + durationMinutes)
                 sessionType existingSessions availabilityWindows) } := by
  unfold generateSuggestions at h
  have h1 := List.mem_of_mem_take h
  have h2 := (List.perm_insertionSort suggOrder _).mem_iff.mp h1
  rw [List.mem_flatMap] at h2
  obtain ⟨dayOffset, _, h3⟩ := h2
  rw [List.mem_filterMap] at h3
  obtain ⟨startTime, _, h4⟩ := h3
  refine ⟨startTime, ?_⟩
  dsimp only at h4
  by_cases hany : existingSessions.any
      (conflictTest startTime (startTime + durationMinutes)) = true
  · rw [if_pos hany] at h4
    exact absurd h4 (by simp)
  · rw [if_neg hany] at h4
    by_cases hscore : (30 : ℚ) ≤ scoreTimeSlot startTime (startTime + durationMinutes)
        sessionType existingSessions availabilityWindows
    · rw [if_pos hscore] at h4
      refine ⟨by simpa using hany, hscore, ?_⟩
      exact ((Option.some.injEq _ _).mp h4).symm
    · rw [if_neg hscore] at h4
      exact absurd h4 (by simp)

/-! Claim C9. -/

/-- C9: on positive-duration candidate and session intervals, the suggestion
engine's three-disjunct conflict test holds exactly when the session-create
route's overlap test (`s.startTime < candEnd ∧ candStart < s.endTime`) holds. -/
theorem c9_overlap_equivalence (candStart candEnd : Int) (s : Session)
    (hc : candStart < candEnd) (hs : s.startTime < s.endTime) :
    conflictTest candStart candEnd s = true ↔ overlapTest candStart candEnd s = true :=
  conflictTest_iff_overlapTest hc hs

/-- C9 witness: the equivalence instantiated at a concrete slot and session. -/
theorem c9_witness :
    (0 : Int) < 60 ∧
    ({ id := "s", sessionTypeId := "t", sessionType := { id := "t", name := "T", priority := 3 },
       startTime := 30, endTime := 90, completed := false } : Session).startTime < 90 ∧
    (conflictTest 0 60
        { id := "s", sessionTypeId := "t", sessionType := { id := "t", name := "T", priority := 3 },
          startTime := 30, endTime := 90, completed := false } = true ↔
      overlapTest 0 60
        { id := "s", sessionTypeId := "t", sessionType := { id := "t", name := "T", priority := 3 },
          startTime := 30, endTime := 90, completed := false } = true) :=
  ⟨by decide, by decide,
    c9_overlap_equivalence 0 60
      { id := "s", sessionTypeId := "t", sessionType := { id := "t", name := "T", priority := 3 },
        startTime := 30, endTime := 90, completed := false } (by decide) (by decide)⟩

/-! Claim C7. -/

/-- C7: given an existing session type and a positive-duration request, the
create route answers a conflict-class result exactly when some existing
(well-formed) session overlaps the request under the engine's half-open
conflict test; with no such overlap it answers `created`. -/
theorem c7_conflict_rejection (sessionTypeExists : Bool) (startTime endTime : Int)
    (existing : List Session) (hT : sessionTypeExists = true) (hSE : startTime < endTime)
    (hW : ∀ s ∈ existing, s.startTime < s.endTime) :
    ((∃ cs, sessionsPOST sessionTypeExists startTime endTime existing = .conflict cs) ↔
      ∃ s ∈ existing, conflictTest startTime endTime s = true) ∧
    ((∀ s ∈ existing, conflictTest startTime endTime s = false) →
      sessionsPOST sessionTypeExists startTime endTime existing = .created startTime endTime) := by
  subst hT
  unfold sessionsPOST
  rw [decide_eq_true hSE]
  simp only [Bool.not_true, Bool.false_eq_true, if_false]
  have hiff : ∀ s ∈ existing, (conflictTest startTime endTime s = true ↔
      overlapTest startTime endTime s = true) :=
    fun s hs => conflictTest_iff_overlapTest hSE (hW s hs)
  by_cases hf : (existing.filter (overlapTest startTime endTime)).isEmpty = true
  · rw [if_pos hf]
    rw [List.isEmpty_iff, List.filter_eq_nil_iff] at hf
    constructor
    · constructor
      · rintro ⟨cs, hcs⟩
        exact absurd hcs (by simp)
      · rintro ⟨s, hs, hct⟩
        exact absurd ((hiff s hs).mp hct) (hf s hs)
    · intro _
      rfl
  · rw [if_neg hf]
    rw [List.isEmpty_iff] at hf
    obtain ⟨s, hsf⟩ := List.exists_mem_of_ne_nil _ hf
    have hs := List.mem_filter.mp hsf
    constructor
    · constructor
      · intro _
        exact ⟨s, hs.1, (hiff s hs.1).mpr hs.2⟩
      · intro _
        exact ⟨_, rfl⟩
    · intro hnone
      exact absurd ((hiff s hs.1).mpr hs.2) (by simp [hnone s hs.1])

/-- C7 witness: with an existing 10:00–11:00 session (minutes 600–660 of a
day), creating 10:30–11:30 (630–690) is a conflict and creating 12:00–13:00
(720–780) succeeds. -/
theorem c7_witness :
    (∃ cs, sessionsPOST true 630 690
      [{ id := "s1", sessionTypeId := "t2",
         sessionType := { id := "t2", name := "Meeting", priority := 3 },
         startTime := 600, endTime := 660, completed := false }] = .conflict cs) ∧
    sessionsPOST true 720 780
      [{ id := "s1", sessionTypeId := "t2",
         sessionType := { id := "t2", name := "Meeting", priority := 3 },
         startTime := 600, endTime := 660, completed := false }] = .created 720 780 := by
  constructor
  · exact (c7_conflict_rejection true 630 690 _ rfl (by decide)
      (by intro s hs; simp only [List.mem_singleton] at hs; subst hs; decide)).1.mpr
      ⟨_, List.mem_singleton_self _, by decide⟩
  · exact (c7_conflict_rejection true 720 780 _ rfl (by decide)
      (by intro s hs; simp only [List.mem_singleton] at hs; subst hs; decide)).2
      (by intro s hs; simp only [List.mem_singleton] at hs; subst hs; decide)

/-! Claim C6. -/

/-- C6: `completionRate` is `round(completed/scheduled*100)` for non-empty
input and 0 otherwise, and the aggregator maps the empty list to the all-zero
record. -/
theorem c6_completion_rate (sessions : List Session) :
    ((calculateProgressStats sessions).completionRate =
      if 0 < sessions.length then
        round ((((sessions.filter (fun s => s.completed)).length : ℚ) /
          (sessions.length : ℚ)) * 100)
      else 0) ∧
    calculateProgressStats [] =
      { totalScheduled := 0, totalCompleted := 0, completionRate := 0,
        sessionsByType := [], averageSpacing := 0 } := by
  constructor
  · rfl
  · simp [calculateProgressStats, calculateSessionsByType, groupBySessionTypeId,
      calculateAverageSpacing, roundTo1, List.insertionSort]

/-! Claim C3. -/

/-- Claim-side notion for C3: the list of positive directed whole-hour gaps
between the candidate interval and the existing sessions (before-gap and
after-gap for each session). -/
def positiveDirectedGaps (proposedStart proposedEnd : Int) (existing : List Session) :
    List Int :=
  (existing.flatMap (fun s =>
    [differenceInHours proposedStart s.endTime,
     differenceInHours s.startTime proposedEnd])).filter (fun d => decide (0 < d))

/-- Minimum of a list of integers as an `Option` (`none` for the empty list). -/
def minOfList (l : List Int) : Option Int :=
  l.foldr (fun d acc => optMin (some d) acc) none

theorem optMin_none_right (a : Option Int) : optMin a none = a := by
  cases a <;> rfl

theorem optMin_assoc (a b c : Option Int) :
    optMin (optMin a b) c = optMin a (optMin b c) := by
  cases a <;> cases b <;> cases c <;> simp [optMin, min_assoc]

theorem minOfList_append (l₁ l₂ : List Int) :
    minOfList (l₁ ++ l₂) = optMin (minOfList l₁) (minOfList l₂) := by
  induction l₁ with
  | nil => simp [minOfList, optMin]
  | cons d t ih =>
    simp only [List.cons_append, minOfList, List.foldr_cons] at *
    rw [ih, optMin_assoc]

/-- The engine's per-session fold computes the minimum of the flat list of
positive directed gaps. -/
theorem minSpacingOf_eq_minOfList (proposedStart proposedEnd : Int)
    (existing : List Session) :
    minSpacingOf proposedStart proposedEnd existing =
      minOfList (positiveDirectedGaps proposedStart proposedEnd existing) := by
  induction existing with
  | nil => rfl
  | cons s t ih =>
    have hone : minOfList (positiveDirectedGaps proposedStart proposedEnd [s]) =
        sessionSpacing proposedStart proposedEnd s := by
      unfold positiveDirectedGaps minOfList sessionSpacing posOrInf
      by_cases h1 : 0 < differenceInHours proposedStart s.endTime <;>
        by_cases h2 : 0 < differenceInHours s.startTime proposedEnd <;>
        simp [h1, h2, optMin]
    have hsplit : positiveDirectedGaps proposedStart proposedEnd (s :: t) =
        positiveDirectedGaps proposedStart proposedEnd [s] ++
        positiveDirectedGaps proposedStart proposedEnd t := by
      unfold positiveDirectedGaps
      rw [List.flatMap_cons, List.filter_append]
      simp
    rw [hsplit, minOfList_append, hone]
    unfold minSpacingOf at *
    simp only [List.foldr_cons]
    rw [ih]

/-- Concrete session `[0, 60)` used for C3: it ends 30 minutes before the
candidate `[90, 150)` starts. -/
def subHourGapSession : Session :=
  { id := "s", sessionTypeId := "t",
    sessionType := { id := "t", name := "T", priority := 3 },
    startTime := 0, endTime := 60, completed := false }

/-- C3 counterexample: session `[0, 60)`, candidate `[90, 150)`. The candidate
starts 30 minutes — strictly less than 2 hours — after the session's end, so
the claim demands a spacing factor of 0, but `differenceInHours` truncates the
30-minute gap to 0 whole hours, the `> 0` guard discards it as if it were
`Infinity`, and the factor evaluates to 100. -/
theorem c3_counterexample_subhour_gap :
    subHourGapSession.endTime < 90 ∧
    90 - subHourGapSession.endTime < 120 ∧
    calculateSpacingScore 90 150 [subHourGapSession] = 100 ∧
    calculateSpacingScore 90 150 [subHourGapSession] ≠ 0 := by
  refine ⟨by decide, by decide, ?_, ?_⟩
  · rfl
  · intro h
    exact absurd h (by decide)

/-- C3 (amended): for a non-empty session list the spacing factor is computed
from the minimum *positive whole-hour* (truncated) gap over all sessions and
both directions; gaps of less than one hour truncate to 0 and are discarded
(treated as `Infinity`). If no positive whole-hour gap exists the factor is
100; if the minimum is below 2 the factor is 0; otherwise it is
`min 100 (gap/24*100)`. With zero existing sessions the factor is 100. -/
theorem c3_amended_spacing_factor (proposedStart proposedEnd : Int)
    (existing : List Session) (h : existing ≠ []) :
    calculateSpacingScore proposedStart proposedEnd existing =
      (match minOfList (positiveDirectedGaps proposedStart proposedEnd existing) with
       | none => 100
       | some m => if m < 2 then 0 else min 100 ((m : ℚ) / 24 * 100)) ∧
    calculateSpacingScore proposedStart proposedEnd [] = 100 := by
  constructor
  · unfold calculateSpacingScore
    rw [if_neg (by simpa [List.isEmpty_iff] using h)]
    rw [minSpacingOf_eq_minOfList]
    rfl
  · rfl

/-- C3 amended-claim witness at the counterexample's input. -/
theorem c3_amended_witness :
    calculateSpacingScore 90 150 [subHourGapSession] =
      (match minOfList (positiveDirectedGaps 90 150 [subHourGapSession]) with
       | none => 100
       | some m => if m < 2 then 0 else min 100 ((m : ℚ) / 24 * 100)) :=
  (c3_amended_spacing_factor 90 150 [subHourGapSession] (List.cons_ne_nil _ _)).1

/-! Claim C4. -/

/-- C4: for at least two sessions, `averageSpacing` is the rounded-to-1-decimal
average over consecutive (start-sorted) pairs of the truncated whole-hour gap
from the previous session's end to the next session's start, divided by 24;
negative gaps are kept. For fewer than two sessions it is 0. -/
theorem c4_average_spacing (sessions : List Session) :
    (2 ≤ sessions.length →
      (calculateProgressStats sessions).averageSpacing =
        roundTo1 (((((sortByStart sessions).zip (sortByStart sessions).tail).map
            (fun p => differenceInHours p.2.startTime p.1.endTime)).sum : ℚ) /
          ((sessions.length : ℚ) - 1) / 24)) ∧
    (sessions.length < 2 → (calculateProgressStats sessions).averageSpacing = 0) := by
  have hproj : (calculateProgressStats sessions).averageSpacing =
      roundTo1 (calculateAverageSpacing sessions) := rfl
  have hsortlen : (sortByStart sessions).length = sessions.length :=
    (List.perm_insertionSort _ _).length_eq
  constructor
  · intro h
    rw [hproj]
    congr 1
    unfold calculateAverageSpacing
    rw [if_neg (by omega)]
    have hlen : (((sortByStart sessions).zip (sortByStart sessions).tail).map
        (fun p => differenceInHours p.2.startTime p.1.endTime)).length
        = sessions.length - 1 := by
      rw [List.length_map, List.length_zip, List.length_tail, hsortlen]
      omega
    rw [if_neg (by rw [hlen]; omega)]
    rw [hlen, Nat.cast_sub (by omega), Nat.cast_one]
  · intro h
    rw [hproj]
    unfold calculateAverageSpacing
    rw [if_pos h]
    simp [roundTo1]

/-- Completed session `[0, 60)` of type `A`, for the C4 witness. -/
def spacingSessionA : Session :=
  { id := "1", sessionTypeId := "A", sessionType := { id := "A", name := "T", priority := 2 },
    startTime := 0, endTime := 60, completed := true }

/-- Pending session `[1500, 1560)` of type `A`, for the C4 witness. -/
def spacingSessionB : Session :=
  { id := "2", sessionTypeId := "A", sessionType := { id := "A", name := "T", priority := 2 },
    startTime := 1500, endTime := 1560, completed := false }

/-- C4 witness: the formula instantiated at a concrete two-session list. -/
theorem c4_witness :
    2 ≤ ([spacingSessionA, spacingSessionB] : List Session).length ∧
    (calculateProgressStats [spacingSessionA, spacingSessionB]).averageSpacing =
      roundTo1 (((((sortByStart [spacingSessionA, spacingSessionB]).zip
          (sortByStart [spacingSessionA, spacingSessionB]).tail).map
          (fun p => differenceInHours p.2.startTime p.1.endTime)).sum : ℚ) /
        ((([spacingSessionA, spacingSessionB] : List Session).length : ℚ) - 1) / 24) :=
  ⟨by decide, (c4_average_spacing [spacingSessionA, spacingSessionB]).1 (by decide)⟩

/-! Claim C8. -/

/-- Clause (a) of C8 as amended: the spacing clause built from the positive
truncated whole-hour gaps to same-type sessions; empty when same-type sessions
exist but none has a positive gap. -/
def spacingClause (startTime : Int) (existingSessions : List Session)
    (sessionTypeId : String) : List String :=
  match existingSessions.filter (fun s => decide (s.sessionTypeId = sessionTypeId)) with
  | [] => ["First session of this type"]
  | first :: rest =>
    match minOfList (((first :: rest).map
        (fun s => differenceInHours startTime s.endTime)).filter (fun d => decide (0 < d))) with
    | none => []
    | some minSpacing =>
      if 24 ≤ minSpacing then
        ["Good spacing (" ++ fmtTenths (round ((minSpacing : ℚ) / 24 * 10)) ++
          " days since last " ++ first.sessionType.name ++ ")"]
      else
        ["Good spacing (" ++ toString minSpacing ++ " hours since last " ++
          first.sessionType.name ++ ")"]

/-- Clause (b) of C8: focus-window clause from the candidate's start hour. -/
def focusClause (startTime : Int) : List String :=
  if 6 ≤ getHours startTime ∧ getHours startTime < 12 then ["Uses your morning focus window"]
  else if 18 ≤ getHours startTime ∧ getHours startTime < 22 then
    ["Uses your evening focus window"]
  else []

/-- Clause (c) of C8: high-priority clause. -/
def priorityClause (priority : ℚ) : List String :=
  if HIGH_PRIORITY_THRESHOLD ≤ priority then ["High priority session"] else []

/-- Session `[120, 180)` of type `A` lying in the candidate's future, for the
C8 counterexample. -/
def futureTypedSession : Session :=
  { id := "f", sessionTypeId := "A", sessionType := { id := "A", name := "Yoga", priority := 1 },
    startTime := 120, endTime := 180, completed := false }

/-- C8 counterexample: a same-type session exists (so by the claim a spacing
clause applies and the reason cannot be the default), yet because the session
lies in the candidate's future there is no positive gap, the source emits no
spacing clause, and — with the start hour outside both focus windows and
priority below 4 — returns the default string. -/
theorem c8_counterexample_future_session :
    [futureTypedSession].filter (fun s => decide (s.sessionTypeId = "A")) ≠ [] ∧
    generateReason 0 50 1 [futureTypedSession] "A" = "Good time slot available" := by
  constructor
  · decide
  · decide

/-- C8 (amended): the reason string is the ". "-joined concatenation of the
spacing clause (days variant for minimum positive truncated gap ≥ 24h, hours
variant for a smaller positive gap, "First session of this type" when no
same-type session exists, and *no* clause when same-type sessions exist but
none has a positive truncated gap), the focus-window clause, and the
high-priority clause; the default string is returned when no clause applies. -/
theorem c8_amended_reason (startTime : Int) (score priority : ℚ)
    (existingSessions : List Session) (sessionTypeId : String) :
    generateReason startTime score priority existingSessions sessionTypeId =
      (if (spacingClause startTime existingSessions sessionTypeId ++
           focusClause startTime ++ priorityClause priority).isEmpty then
        "Good time slot available"
      else
        String.intercalate ". " (spacingClause startTime existingSessions sessionTypeId ++
          focusClause startTime ++ priorityClause priority)) := by
  unfold generateReason spacingClause focusClause priorityClause minOfList
  cases h : existingSessions.filter (fun s => decide (s.sessionTypeId = sessionTypeId)) with
  | nil => simp [h]
  | cons first rest => simp [h]

/-! Further shared helpers, for C1, C2, C5 and C10. -/

/-- `generateSuggestions` is a take-10 of an insertion sort of some list. -/
theorem generateSuggestions_shape (sessionType : SessionType)
    (existingSessions : List Session) (availabilityWindows : List AvailabilityWindow)
    (durationMinutes : Int) (lookAheadDays : Nat) (now : Int) :
    ∃ l, generateSuggestions sessionType existingSessions availabilityWindows
      durationMinutes lookAheadDays now = (List.insertionSort suggOrder l).take 10 :=
  ⟨_, rfl⟩

theorem take10_sort_ne_nil {l : List SessionSuggestion} (h : l ≠ []) :
    (List.insertionSort suggOrder l).take 10 ≠ [] := by
  intro hnil
  have hlen := congrArg List.length hnil
  rw [List.length_take, List.length_insertionSort] at hlen
  simp only [List.length_nil] at hlen
  have h2 : l.length = 0 := by omega
  exact h (List.length_eq_zero.mp h2)

theorem dayFloor_idem (t : Int) : dayFloor (dayFloor t) = dayFloor t := by
  unfold dayFloor
  rw [Int.mul_fdiv_cancel_left _ (by norm_num)]

/-- With no sessions and no windows the weighted score of any slot is
`72.5 + 3 * priority` (spacing 100, day-load 100, availability 50,
fatigue 100). -/
theorem scoreTimeSlot_empty (t e : Int) (sessionType : SessionType) :
    scoreTimeSlot t e sessionType [] [] = 145 / 2 + 3 * sessionType.priority := by
  have hfat : calculateFatigueScore t sessionType.priority [] = 100 := by
    unfold calculateFatigueScore
    split
    · rfl
    · simp
  have hspace : calculateSpacingScore t e [] = 100 := rfl
  have hday : calculateDayLoadScore t [] = 100 := by
    unfold calculateDayLoadScore MAX_SESSIONS_PER_DAY
    simp
  have havail : calculateAvailabilityScore t e [] = 50 := rfl
  unfold scoreTimeSlot calculatePriorityScore
  rw [hfat, hspace, hday, havail]
  ring

theorem calculateSpacingScore_le_100 (a b : Int) (l : List Session) :
    calculateSpacingScore a b l ≤ 100 := by
  unfold calculateSpacingScore
  split
  · norm_num
  · split
    · norm_num
    · split
      · norm_num
      · exact min_le_left _ _

theorem calculatePriorityScore_le_100 {p : ℚ} (hp : p ≤ 5) :
    calculatePriorityScore p ≤ 100 := by
  unfold calculatePriorityScore
  linarith

theorem calculateDayLoadScore_le_100 (t : Int) (l : List Session) :
    calculateDayLoadScore t l ≤ 100 := by
  simp only [calculateDayLoadScore]
  split
  · norm_num
  · rw [sub_le_self_iff]
    positivity

theorem calculateAvailabilityScore_le_100 (a b : Int) (w : List AvailabilityWindow) :
    calculateAvailabilityScore a b w ≤ 100 := by
  simp only [calculateAvailabilityScore]
  split
  · norm_num
  · split
    · norm_num
    · split
      · norm_num
      · norm_num

theorem calculateFatigueScore_le_100 (t : Int) (p : ℚ) (l : List Session) :
    calculateFatigueScore t p l ≤ 100 := by
  simp only [calculateFatigueScore]
  split
  · norm_num
  · split
    · norm_num
    · split
      · norm_num
      · norm_num

/-- Factor bound: with priority at most 5 the weighted score never exceeds 100
(the weights 0.3/0.15/0.2/0.25/0.1 sum to 1). -/
theorem scoreTimeSlot_le_100 (t e : Int) (sessionType : SessionType)
    (existingSessions : List Session) (availabilityWindows : List AvailabilityWindow)
    (hp : sessionType.priority ≤ 5) :
    scoreTimeSlot t e sessionType existingSessions availabilityWindows ≤ 100 := by
  have h1 := calculateSpacingScore_le_100 t e existingSessions
  have h2 := calculatePriorityScore_le_100 hp
  have h3 := calculateDayLoadScore_le_100 t existingSessions
  have h4 := calculateAvailabilityScore_le_100 t e availabilityWindows
  have h5 := calculateFatigueScore_le_100 t sessionType.priority existingSessions
  unfold scoreTimeSlot
  linarith

theorem round_thirty : round ((30 : ℚ)) = 30 := by
  rw [show ((30 : ℚ)) = ((30 : Int) : ℚ) by norm_num, round_intCast]

theorem round_hundred : round ((100 : ℚ)) = 100 := by
  rw [show ((100 : ℚ)) = ((100 : Int) : ℚ) by norm_num, round_intCast]

/-! Claim C1. -/

/-- C1: every surfaced suggestion's candidate interval
`[startTime, startTime + durationMinutes)` intersects no existing session's
`[s.startTime, s.endTime)` (half-open semantics). -/
theorem c1_no_conflict_invariant (sessionType : SessionType)
    (existingSessions : List Session) (availabilityWindows : List AvailabilityWindow)
    (durationMinutes : Int) (lookAheadDays : Nat) (now : Int) :
    (generateSuggestions sessionType existingSessions availabilityWindows durationMinutes
      lookAheadDays now).all (fun sugg =>
        decide (sugg.endTime = sugg.startTime + durationMinutes) &&
        existingSessions.all (fun s =>
          decide (¬ intervalsIntersect sugg.startTime sugg.endTime
            s.startTime s.endTime))) = true := by
  rw [List.all_eq_true]
  intro sugg hmem
  obtain ⟨t, hany, _, hs⟩ := mem_generateSuggestions hmem
  subst hs
  dsimp only
  rw [Bool.and_eq_true]
  refine ⟨by simp, ?_⟩
  rw [List.all_eq_true]
  intro s hsmem
  rw [decide_eq_true_eq]
  intro hint
  have hct : conflictTest t (t + durationMinutes) s = true :=
    conflictTest_of_intersect hint
  exact List.any_eq_false.mp hany s hsmem hct

/-! Claim C2. -/

/-- C2: the returned list has at most 10 elements, every element scores at
least 30, and the list is sorted by score descending. -/
theorem c2_top10_sorted (sessionType : SessionType)
    (existingSessions : List Session) (availabilityWindows : List AvailabilityWindow)
    (durationMinutes : Int) (lookAheadDays : Nat) (now : Int) :
    (generateSuggestions sessionType existingSessions availabilityWindows durationMinutes
      lookAheadDays now).length ≤ 10 ∧
    (generateSuggestions sessionType existingSessions availabilityWindows durationMinutes
      lookAheadDays now).all (fun s => decide (30 ≤ s.score)) = true ∧
    (generateSuggestions sessionType existingSessions availabilityWindows durationMinutes
      lookAheadDays now).Pairwise (fun a b => b.score ≤ a.score) := by
  obtain ⟨l, hl⟩ := generateSuggestions_shape sessionType existingSessions
    availabilityWindows durationMinutes lookAheadDays now
  refine ⟨?_, ?_, ?_⟩
  · rw [hl, List.length_take]
    exact min_le_left _ _
  · rw [List.all_eq_true]
    intro sugg hmem
    obtain ⟨t, _, hscore, hs⟩ := mem_generateSuggestions hmem
    subst hs
    dsimp only
    rw [decide_eq_true_eq]
    have h30 := round_le_round_of_le hscore
    rw [round_thirty] at h30
    exact h30
  · rw [hl]
    have hsorted : List.Sorted suggOrder (List.insertionSort suggOrder l) :=
      List.sorted_insertionSort suggOrder l
    have hpw := List.Pairwise.sublist (List.take_sublist 10 _) hsorted
    exact hpw.imp (fun hab => neg_le_neg_iff.mp hab)

/-! Claim C10. -/

/-- C10: every returned score is an integer (the embedding stores
`Math.round` of the weighted sum, an `Int`) lying between 30 and 100; the
upper bound holds because each factor is at most 100 — given the data-model
invariant `priority ≤ 5` — and the weights sum to 1, with no clamping. -/
theorem c10_score_integer_range (sessionType : SessionType)
    (existingSessions : List Session) (availabilityWindows : List AvailabilityWindow)
    (durationMinutes : Int) (lookAheadDays : Nat) (now : Int)
    (hp : sessionType.priority ≤ 5) :
    (generateSuggestions sessionType existingSessions availabilityWindows durationMinutes
      lookAheadDays now).all
        (fun s => decide (30 ≤ s.score) && decide (s.score ≤ 100)) = true := by
  rw [List.all_eq_true]
  intro sugg hmem
  obtain ⟨t, _, hscore, hs⟩ := mem_generateSuggestions hmem
  subst hs
  dsimp only
  rw [Bool.and_eq_true, decide_eq_true_eq, decide_eq_true_eq]
  constructor
  · have h30 := round_le_round_of_le hscore
    rw [round_thirty] at h30
    exact h30
  · have hle := scoreTimeSlot_le_100 t (t + durationMinutes) sessionType
      existingSessions availabilityWindows hp
    have h100 := round_le_round_of_le hle
    rw [round_hundred] at h100
    exact h100

/-- C10 witness: the bound instantiated at a concrete priority-5 session type
with no sessions, no windows, one look-ahead day. -/
theorem c10_witness :
    ({ id := "t", name := "T", priority := 5 } : SessionType).priority ≤ 5 ∧
    (generateSuggestions { id := "t", name := "T", priority := 5 } [] [] 60 1 0).all
      (fun s => decide (30 ≤ s.score) && decide (s.score ≤ 100)) = true :=
  ⟨by decide, c10_score_integer_range { id := "t", name := "T", priority := 5 }
    [] [] 60 1 0 (by decide)⟩

/-- A day offset within range and a generated slot that is conflict-free and
scores at least 30 force a non-empty result. -/
theorem generateSuggestions_ne_nil_of_slot (sessionType : SessionType)
    (existingSessions : List Session) (availabilityWindows : List AvailabilityWindow)
    (durationMinutes : Int) (lookAheadDays : Nat) (now : Int) (dayOffset : Nat) (t : Int)
    (hday : dayOffset ∈ List.range lookAheadDays)
    (hslot : t ∈ generateTimeSlots (dayFloor now + (dayOffset : Int) * 1440)
      durationMinutes availabilityWindows)
    (hnoc : existingSessions.any (conflictTest t (t + durationMinutes)) = false)
    (hsc : (30 : ℚ) ≤ scoreTimeSlot t (t + durationMinutes) sessionType
      existingSessions availabilityWindows) :
    generateSuggestions sessionType existingSessions availabilityWindows
      durationMinutes lookAheadDays now ≠ [] := by
  simp only [generateSuggestions]
  apply take10_sort_ne_nil
  refine List.ne_nil_of_mem (List.mem_flatMap.mpr
    ⟨dayOffset, hday, List.mem_filterMap.mpr ⟨t, hslot, (?_ :
      _ = some { sessionTypeId := sessionType.id, startTime := t,
                 endTime := t + durationMinutes,
                 reason := generateReason t (scoreTimeSlot t (t + durationMinutes)
                   sessionType existingSessions availabilityWindows) sessionType.priority
                   existingSessions sessionType.id,
                 score := round (scoreTimeSlot t (t + durationMinutes) sessionType
                   existingSessions availabilityWindows) })⟩⟩)
  dsimp only
  rw [hnoc]
  simp only [Bool.false_eq_true, if_false]
  rw [if_pos hsc]

/-! Claim C5. -/

/-- C5: with no availability windows, no existing sessions, a 60-minute
duration, at least one look-ahead day and a non-negative priority, the engine
returns a non-empty list (the 06:00–22:00 default window supplies slots, each
scoring `72.5 + 3*priority ≥ 30`). -/
theorem c5_fallback_nonempty (sessionType : SessionType) (lookAheadDays : Nat)
    (now : Int) (hp : 0 ≤ sessionType.priority) (hl : 1 ≤ lookAheadDays) :
    generateSuggestions sessionType [] [] 60 lookAheadDays now ≠ [] := by
  have hscore : (30 : ℚ) ≤ scoreTimeSlot (setHM (dayFloor now) 6 0)
      (setHM (dayFloor now) 6 0 + 60) sessionType [] [] := by
    rw [scoreTimeSlot_empty]
    linarith
  have hslot : setHM (dayFloor now) 6 0 ∈
      generateTimeSlots (dayFloor now + ((0 : Nat) : Int) * 1440) 60 [] := by
    have heq : dayFloor now + ((0 : Nat) : Int) * 1440 = dayFloor now := by simp
    rw [heq]
    unfold generateTimeSlots
    simp only [List.filter_nil, List.isEmpty_nil, if_true]
    unfold slotLoop
    rw [dif_pos (by unfold setHM; linarith)]
    exact List.mem_cons_self _ _
  exact generateSuggestions_ne_nil_of_slot sessionType [] [] 60 lookAheadDays now 0
    (setHM (dayFloor now) 6 0) (List.mem_range.mpr (by omega)) hslot rfl hscore

/-- C5 witness: the fallback instantiated at priority 5, one look-ahead day,
clock at the epoch. -/
theorem c5_witness :
    (0 : ℚ) ≤ ({ id := "t", name := "T", priority := 5 } : SessionType).priority ∧
    1 ≤ 1 ∧
    generateSuggestions { id := "t", name := "T", priority := 5 } [] [] 60 1 0 ≠ [] :=
  ⟨by decide, le_refl 1,
    c5_fallback_nonempty { id := "t", name := "T", priority := 5 } 1 0 (by decide)
      (le_refl 1)⟩

end SessionPlanner
